import Mathlib

/-!
Verification of the zoe-academy-paystack-backend payment-reconciliation core.

Shallow embedding of the repository's two HTTP handlers
(`api/initialize-payment.js`, `api/paystack-webhook.js`, with the
Express variant in the unnamed server file agreeing on the shared logic)
and the provider-gateway helpers in `utils/paystack.js`.

Modelling conventions:
* JavaScript values flowing out of the parsed JSON request body are
  modelled as `Json`; a possibly-`undefined` value is `Option Json`
  (`none` = JS `undefined` / SQL `NULL`).  JS strict equality `===` on
  the primitive values compared here is structural equality on `Json`.
* The PostgreSQL `registrations` table is a `List Registration`; SQL
  `UPDATE ... WHERE email = $n` touches every matching row, `INSERT`
  appends, `SELECT` filters.  `NOW()` is an explicit `now : Nat`
  argument.
* External effects (the provider HTTP API, the HMAC primitive of
  node:crypto) are parameters of the handler functions; the handlers
  return the HTTP status they send, the new table state, and an ordered
  trace of the observable actions they performed, so that temporal
  claims are about the trace.
* Handlers never throw: every `try/catch` of the source is compiled
  into the corresponding `Option`/branch structure.
-/

namespace ZoeAcademy

/-- Parsed JSON values, as produced by Express/Vercel body parsing.
Numbers are restricted to integers (all amounts and the fields compared
by the code are integers). -/
inductive Json where
  | str : String → Json
  | num : Int → Json
  | bool : Bool → Json
  | null : Json
  | arr : List Json → Json
  | obj : List (String × Json) → Json

mutual

/-- JS strict equality `===` restricted to the (primitive-valued)
data the code compares; structural on composites. -/
def Json.beq : Json → Json → Bool
  | Json.str a, Json.str b => a == b
  | Json.num a, Json.num b => a == b
  | Json.bool a, Json.bool b => a == b
  | Json.null, Json.null => true
  | Json.arr a, Json.arr b => beqArr a b
  | Json.obj a, Json.obj b => beqFields a b
  | _, _ => false

def beqArr : List Json → List Json → Bool
  | [], [] => true
  | a :: as, b :: bs => Json.beq a b && beqArr as bs
  | _, _ => false

def beqFields : List (String × Json) → List (String × Json) → Bool
  | [], [] => true
  | a :: as, b :: bs => (a.1 == b.1 && Json.beq a.2 b.2) && beqFields as bs
  | _, _ => false

end

instance : BEq Json := ⟨Json.beq⟩

mutual

def Json.beq_iff : ∀ a b : Json, (Json.beq a b = true) ↔ a = b
  | Json.str _, Json.str _ => by simp [Json.beq]
  | Json.str _, Json.num _ => by simp [Json.beq]
  | Json.str _, Json.bool _ => by simp [Json.beq]
  | Json.str _, Json.null => by simp [Json.beq]
  | Json.str _, Json.arr _ => by simp [Json.beq]
  | Json.str _, Json.obj _ => by simp [Json.beq]
  | Json.num _, Json.str _ => by simp [Json.beq]
  | Json.num _, Json.num _ => by simp [Json.beq]
  | Json.num _, Json.bool _ => by simp [Json.beq]
  | Json.num _, Json.null => by simp [Json.beq]
  | Json.num _, Json.arr _ => by simp [Json.beq]
  | Json.num _, Json.obj _ => by simp [Json.beq]
  | Json.bool _, Json.str _ => by simp [Json.beq]
  | Json.bool _, Json.num _ => by simp [Json.beq]
  | Json.bool _, Json.bool _ => by simp [Json.beq]
  | Json.bool _, Json.null => by simp [Json.beq]
  | Json.bool _, Json.arr _ => by simp [Json.beq]
  | Json.bool _, Json.obj _ => by simp [Json.beq]
  | Json.null, Json.str _ => by simp [Json.beq]
  | Json.null, Json.num _ => by simp [Json.beq]
  | Json.null, Json.bool _ => by simp [Json.beq]
  | Json.null, Json.null => by simp [Json.beq]
  | Json.null, Json.arr _ => by simp [Json.beq]
  | Json.null, Json.obj _ => by simp [Json.beq]
  | Json.arr _, Json.str _ => by simp [Json.beq]
  | Json.arr _, Json.num _ => by simp [Json.beq]
  | Json.arr _, Json.bool _ => by simp [Json.beq]
  | Json.arr _, Json.null => by simp [Json.beq]
  | Json.arr as, Json.arr bs => by
      have h := beqArr_iff as bs
      simp [Json.beq, h]
  | Json.arr _, Json.obj _ => by simp [Json.beq]
  | Json.obj _, Json.str _ => by simp [Json.beq]
  | Json.obj _, Json.num _ => by simp [Json.beq]
  | Json.obj _, Json.bool _ => by simp [Json.beq]
  | Json.obj _, Json.null => by simp [Json.beq]
  | Json.obj _, Json.arr _ => by simp [Json.beq]
  | Json.obj fs, Json.obj gs => by
      have h := beqFields_iff fs gs
      simp [Json.beq, h]

def beqArr_iff : ∀ as bs : List Json, (beqArr as bs = true) ↔ as = bs
  | [], [] => by simp [beqArr]
  | [], _ :: _ => by simp [beqArr]
  | _ :: _, [] => by simp [beqArr]
  | a :: as, b :: bs => by
      have h1 := Json.beq_iff a b
      have h2 := beqArr_iff as bs
      simp [beqArr, h1, h2]

def beqFields_iff : ∀ fs gs : List (String × Json), (beqFields fs gs = true) ↔ fs = gs
  | [], [] => by simp [beqFields]
  | [], _ :: _ => by simp [beqFields]
  | _ :: _, [] => by simp [beqFields]
  | f :: fs, g :: gs => by
      have h1 := Json.beq_iff f.2 g.2
      have h2 := beqFields_iff fs gs
      simp [beqFields, h1, h2, Prod.ext_iff]

end

instance : LawfulBEq Json where
  eq_of_beq h := (Json.beq_iff _ _).mp h
  rfl := (Json.beq_iff _ _).mpr rfl

instance : DecidableEq Json :=
  fun a b => decidable_of_iff (Json.beq a b = true) (Json.beq_iff a b)

/-- JS property read `v[key]`: `none` when the key is absent or the
value is not an object (JS yields `undefined`). -/
def Json.getField : Json → String → Option Json
  | Json.obj fields, key => (fields.find? (fun p => p.1 == key)).map (·.2)
  | _, _ => none

/-- String escaping of `JSON.stringify` (quote and backslash; the
payloads in this system contain no control characters). -/
def jsonEscape (s : String) : String :=
  String.join (s.data.map (fun c =>
    if c = '\\' then "\\\\"
    else if c = '"' then "\\\"" else String.singleton c))

mutual

/-- Serialization as `JSON.stringify` performs it: minimal, no whitespace, object keys
in insertion order. -/
def Json.stringify : Json → String
  | Json.str s => "\"" ++ jsonEscape s ++ "\""
  | Json.num n => toString n
  | Json.bool b => if b then "true" else "false"
  | Json.null => "null"
  | Json.arr xs => "[" ++ stringifyArr xs ++ "]"
  | Json.obj fields => "\x7b" ++ stringifyObj fields ++ "\x7d"

def stringifyArr : List Json → String
  | [] => ""
  | [x] => Json.stringify x
  | x :: xs => Json.stringify x ++ "," ++ stringifyArr xs

def stringifyObj : List (String × Json) → String
  | [] => ""
  | [p] => "\"" ++ jsonEscape p.1 ++ "\":" ++ Json.stringify p.2
  | p :: ps =>
      "\"" ++ jsonEscape p.1 ++ "\":" ++ Json.stringify p.2 ++ "," ++ stringifyObj ps

end

/-- One row of the `registrations` table. -/
structure Registration where
  email : String
  full_name : String
  /-- Major currency unit (Naira), as submitted by the client. -/
  amount_paid : Int
  cohort : String
  /-- Either the string `pending` or the string `paid`. -/
  status : String
  /-- Provider transaction reference; `none` is SQL `NULL`. -/
  payment_ref : Option Json
  created_at : Nat
  updated_at : Nat
deriving DecidableEq

/-- The webhook's `UPDATE registrations SET payment_ref = $1, status =
$2, updated_at = NOW() WHERE email = $3` with `$1 = transactionRef`,
`$2 = 'paid'`, `$3 = customerEmail` (both parameters are values taken
from the event body, hence `Option Json`). -/
def markPaid (store : List Registration) (transactionRef customerEmail : Option Json)
    (now : Nat) : List Registration :=
  store.map (fun r =>
    if customerEmail == some (Json.str r.email) then
      { r with payment_ref := transactionRef, status := "paid", updated_at := now }
    else r)

/-- The row the webhook `UPDATE` touched, if any (node-pg reports this
via `rowCount`; the spec's `markPaid` contract returns the row or
none). -/
def markPaidRow (store : List Registration) (transactionRef customerEmail : Option Json)
    (now : Nat) : Option Registration :=
  (markPaid store transactionRef customerEmail now).find?
    (fun r => customerEmail == some (Json.str r.email))

/-! ## Provider gateway (`utils/paystack.js`) -/

/-- The fields the code reads off `verificationResponse.data.data`;
each is `Option Json` because any of them may be `undefined`. -/
structure VerifiedData where
  status : Option Json
  amount : Option Json
  reference : Option Json

/-- Outcome of the provider `GET /transaction/verify/:ref` call.
`fail` covers both a network/HTTP error thrown by axios and a response
whose `data.data` is missing (reading `.status` off `undefined` throws;
both throws land in the same `catch` and the function returns false). -/
inductive ProviderResult where
  | fail : ProviderResult
  | ok : VerifiedData → ProviderResult

/-- Embedding of `verifyPaystackTransaction(transactionRef, paidAmountKobo, secretKey)`:
returns `true` iff the provider call succeeded and
`verifiedStatus === 'success' && verifiedAmountKobo === paidAmountKobo
&& verifiedRef === transactionRef`; every throw is caught and yields
`false` (the function never throws).  The remote call is the
`provider` parameter. -/
def verifyPaystackTransaction (provider : Option Json → ProviderResult)
    (transactionRef paidAmountKobo : Option Json) : Bool :=
  match provider transactionRef with
  | ProviderResult.fail => false
  | ProviderResult.ok d =>
      (d.status == some (Json.str "success"))
        && (d.amount == paidAmountKobo)
        && (d.reference == transactionRef)

/-- An inbound webhook HTTP request: method, the
`x-paystack-signature` header (`none` when absent), the raw body bytes
as received on the wire, and the parsed body the framework hands the
handler. -/
structure WebhookRequest where
  method : String
  xPaystackSignature : Option String
  rawBody : String
  body : Json

/-- Embedding of `verifyPaystackWebhookSignature(req, secretKey)`: false when the
header is absent; otherwise compares the header against the
HMAC-SHA512 hex digest — computed over `JSON.stringify(req.body)`, the
re-serialization of the parsed body, not over `req.rawBody`.  The HMAC
primitive (`crypto.createHmac('sha512', key).update(msg).digest('hex')`)
is the abstract parameter `hmac : key → msg → digest`. -/
def verifyPaystackWebhookSignature (hmac : String → String → String)
    (req : WebhookRequest) (secretKey : String) : Bool :=
  match req.xPaystackSignature with
  | none => false
  | some signature => hmac secretKey (Json.stringify req.body) == signature

/-! ## Webhook reconciliation flow (`api/paystack-webhook.js`) -/

/-- The observable actions of the webhook handler, in the order
performed.  `callVerify` records the arguments passed to
`verifyPaystackTransaction` and its boolean result; `dbWrite` records
the email and reference written by the `UPDATE`. -/
inductive WAction where
  | checkSig : WAction
  | ack200 : WAction
  | filterEvent : WAction
  | callVerify : Option Json → Option Json → Bool → WAction
  | dbWrite : Option Json → Option Json → WAction
deriving DecidableEq

/-- The value `event.data.reference` when it is readable without throwing. -/
def eventRef (body : Json) : Option Json :=
  (body.getField "data").bind (fun d => d.getField "reference")

/-- The value `event.data.amount` when it is readable without throwing. -/
def eventAmt (body : Json) : Option Json :=
  (body.getField "data").bind (fun d => d.getField "amount")

/-- The value `event.data.customer.email` when it is readable without throwing. -/
def eventEmail (body : Json) : Option Json :=
  ((body.getField "data").bind (fun d => d.getField "customer")).bind
    (fun c => c.getField "email")

/-- The body of the `try` block run after the 200 acknowledgment:
filter on `event.event === 'charge.success'`, extract the event
fields, call `verifyPaystackTransaction`, and only on `true` run the
`UPDATE`.  A `TypeError` from reading a field of `undefined`
(`event.data` or `event.data.customer` missing) is caught by the
surrounding `catch` and processing stops with no write. -/
def processWebhookEvent (provider : Option Json → ProviderResult) (event : Json)
    (store : List Registration) (now : Nat) : List WAction × List Registration :=
  if event.getField "event" == some (Json.str "charge.success") then
    match event.getField "data" with
    | none => ([WAction.filterEvent], store)
    | some data =>
      match data.getField "customer" with
      | none => ([WAction.filterEvent], store)
      | some customer =>
        let transactionRef := data.getField "reference"
        let customerEmail := customer.getField "email"
        let paidAmountKobo := data.getField "amount"
        let isVerified := verifyPaystackTransaction provider transactionRef paidAmountKobo
        if isVerified then
          ([WAction.filterEvent, WAction.callVerify transactionRef paidAmountKobo true,
              WAction.dbWrite customerEmail transactionRef],
            markPaid store transactionRef customerEmail now)
        else
          ([WAction.filterEvent, WAction.callVerify transactionRef paidAmountKobo false],
            store)
  else ([WAction.filterEvent], store)

/-- What one webhook invocation produced: the HTTP status of the
synchronous response, the action trace in order, and the table state
afterwards. -/
structure WebhookResult where
  status : Nat
  trace : List WAction
  store : List Registration

/-- The exported Vercel handler of `api/paystack-webhook.js`:
`405` on non-POST; `500` when `PAYSTACK_SECRET_KEY` is unset (before
the signature is even checked); `400` on missing/invalid signature;
otherwise `200` is sent and the event is processed after the
response. -/
def paystackWebhookHandler (hmac : String → String → String)
    (provider : Option Json → ProviderResult) (secretKey : Option String)
    (req : WebhookRequest) (store : List Registration) (now : Nat) : WebhookResult :=
  if req.method != "POST" then
    { status := 405, trace := [], store := store }
  else
    match secretKey with
    | none => { status := 500, trace := [], store := store }
    | some key =>
      if verifyPaystackWebhookSignature hmac req key then
        let processed := processWebhookEvent provider req.body store now
        { status := 200,
          trace := WAction.checkSig :: WAction.ack200 :: processed.1,
          store := processed.2 }
      else
        { status := 400, trace := [WAction.checkSig], store := store }

/-! ## Initialization flow (`api/initialize-payment.js`) -/

/-- The request body of `POST /api/initialize-payment`:
`const { email, amount, fullName } = req.body` with `amount` in Naira
(major units). -/
structure InitRequest where
  method : String
  email : String
  amount : Int
  fullName : String
deriving DecidableEq

/-- The observable actions of the initialization handler, in order:
the `SELECT` inside the transaction, the `INSERT`/`UPDATE` write, and
the provider `POST /transaction/initialize` (recording the email and
the minor-unit amount `amount * 100` it transmits). -/
inductive IAction where
  | storeRead : IAction
  | storeWrite : IAction
  | providerInit : String → Int → IAction
deriving DecidableEq

/-- What one initialization invocation produced. -/
structure InitResult where
  status : Nat
  trace : List IAction
  store : List Registration

/-- The tail of the handler after a committed `INSERT`/`UPDATE`: the
axios `POST` to the provider (`amount * 100` kobo), answering `200`
with the provider payload on success and `500` on a gateway error; the
committed row is untouched either way. -/
def respondAfterGateway (gatewayOk : Bool) (req : InitRequest)
    (committed : List Registration) : InitResult :=
  { status := if gatewayOk then 200 else 500,
    trace := [IAction.storeRead, IAction.storeWrite,
      IAction.providerInit req.email (req.amount * 100)],
    store := committed }

/-- The exported Vercel handler of `api/initialize-payment.js`:
`405` on non-POST; `500` when `PAYSTACK_SECRET_KEY` is unset (no store
or provider access); `400` on invalid input
(`!email || !amount || !fullName || amount <= 0`, with JS falsiness of
the empty string and zero); then, inside one DB transaction, `SELECT`
by email — first row `paid` gives `ROLLBACK` and `409` with no write
and no provider call; otherwise `UPDATE` the existing rows or `INSERT`
a fresh `pending` row, `COMMIT`, and call the provider.
`gatewayOk` is the outcome of the axios initialize call. -/
def initializePaymentHandler (secretKey : Option String) (gatewayOk : Bool)
    (req : InitRequest) (store : List Registration) (now : Nat) : InitResult :=
  if req.method != "POST" then
    { status := 405, trace := [], store := store }
  else
    match secretKey with
    | none => { status := 500, trace := [], store := store }
    | some _ =>
      if req.email == "" || req.amount == 0 || req.fullName == ""
          || decide (req.amount ≤ 0) then
        { status := 400, trace := [], store := store }
      else
        match store.filter (fun r => r.email == req.email) with
        | [] =>
            respondAfterGateway gatewayOk req (store ++
              [{ email := req.email, full_name := req.fullName,
                 amount_paid := req.amount, cohort := "Cohort 3",
                 status := "pending", payment_ref := none,
                 created_at := now, updated_at := now }])
        | existingUser :: _ =>
            if existingUser.status == "paid" then
              { status := 409, trace := [IAction.storeRead], store := store }
            else
              respondAfterGateway gatewayOk req (store.map (fun r =>
                if r.email == req.email then
                  { r with
                      full_name := req.fullName
                      amount_paid := req.amount
                      status := "pending"
                      updated_at := now }
                else r))

/-! ## Concrete scenario vocabulary

A fixed HMAC stand-in, provider behaviours, request bodies and table
rows used to evaluate the development on closed inputs (the spec's
end-to-end scenarios). -/

/-- A concrete injective stand-in for
`crypto.createHmac('sha512', key).update(msg).digest('hex')`: the
development never relies on any property of the digest beyond the ones
visible in the code (same key and message give the same digest;
distinct messages give distinct digests). -/
def hmacW : String → String → String := fun key msg => key ++ ":" ++ msg

/-- A `charge.success` event body: reference `r1`, self-reported
amount `999` kobo, customer email `a@x.com`. -/
def bodyW : Json :=
  Json.obj [("event", Json.str "charge.success"),
    ("data", Json.obj [("reference", Json.str "r1"),
      ("amount", Json.num 999),
      ("customer", Json.obj [("email", Json.str "a@x.com")])])]

/-- A provider that confirms any queried reference with status
`success` and amount `999` kobo. -/
def providerW : Option Json → ProviderResult :=
  fun ref => ProviderResult.ok
    { status := some (Json.str "success"), amount := some (Json.num 999),
      reference := ref }

/-- A provider that reports amount `1000` kobo for any queried
reference. -/
def providerMismatchW : Option Json → ProviderResult :=
  fun ref => ProviderResult.ok
    { status := some (Json.str "success"), amount := some (Json.num 1000),
      reference := ref }

/-- A pending registration row: `a@x.com` initialized with
`amount_paid = 500` Naira. -/
def rowW : Registration :=
  { email := "a@x.com", full_name := "A", amount_paid := 500,
    cohort := "Cohort 3", status := "pending", payment_ref := none,
    created_at := 0, updated_at := 0 }

/-- The row `a@x.com` already `paid`. -/
def rowPaidW : Registration :=
  { rowW with status := "paid", payment_ref := some (Json.str "r0") }

/-- A webhook request carrying `bodyW`, signed (over the
re-serialization, so the handler accepts it) with key `sk`. -/
def reqW : WebhookRequest :=
  { method := "POST",
    xPaystackSignature := some (hmacW "sk" (Json.stringify bodyW)),
    rawBody := Json.stringify bodyW,
    body := bodyW }

/-- A webhook request whose raw wire bytes contain a space
(`\x7b"event": "x"\x7d`) while the parsed body re-serializes without
it; the provider's signature is over the raw bytes. -/
def reqRawW : WebhookRequest :=
  { method := "POST",
    xPaystackSignature := some (hmacW "sk" "\x7b\"event\": \"x\"\x7d"),
    rawBody := "\x7b\"event\": \"x\"\x7d",
    body := Json.obj [("event", Json.str "x")] }

/-- A concrete initialization request for `a@x.com`, 500 Naira. -/
def reqInitW : InitRequest :=
  { method := "POST", email := "a@x.com", amount := 500, fullName := "A" }

/-- Actions of the webhook flow that belong to the processing phase
(everything except the signature check and the 200 acknowledgment). -/
def postAckAction : WAction → Bool
  | WAction.checkSig => false
  | WAction.ack200 => false
  | WAction.filterEvent => true
  | WAction.callVerify _ _ _ => true
  | WAction.dbWrite _ _ => true

/-! ## Structural lemmas -/

/-- Exhaustive description of one run of `processWebhookEvent`: either
it stops at the event filter (wrong event type or a thrown field
access), or verification ran and failed and the store is untouched, or
verification ran and succeeded and the store write is `markPaid` with
the event's email and reference. -/
theorem processWebhookEvent_cases (provider : Option Json → ProviderResult)
    (body : Json) (store : List Registration) (now : Nat) :
    processWebhookEvent provider body store now = ([WAction.filterEvent], store)
    ∨ (verifyPaystackTransaction provider (eventRef body) (eventAmt body) = false
        ∧ processWebhookEvent provider body store now
          = ([WAction.filterEvent,
              WAction.callVerify (eventRef body) (eventAmt body) false], store))
    ∨ (verifyPaystackTransaction provider (eventRef body) (eventAmt body) = true
        ∧ processWebhookEvent provider body store now
          = ([WAction.filterEvent,
              WAction.callVerify (eventRef body) (eventAmt body) true,
              WAction.dbWrite (eventEmail body) (eventRef body)],
             markPaid store (eventRef body) (eventEmail body) now)) := by
  unfold processWebhookEvent
  cases hev : body.getField "event" == some (Json.str "charge.success") with
  | false => left; simp [hev]
  | true =>
    cases hdata : body.getField "data" with
    | none => left; simp [hev, hdata]
    | some data =>
      cases hcust : data.getField "customer" with
      | none => left; simp [hev, hdata, hcust]
      | some customer =>
        have hr : eventRef body = data.getField "reference" := by
          simp [eventRef, hdata]
        have ha : eventAmt body = data.getField "amount" := by
          simp [eventAmt, hdata]
        have he : eventEmail body = customer.getField "email" := by
          simp [eventEmail, hdata, hcust]
        rw [hr, ha, he]
        cases hvf : verifyPaystackTransaction provider (data.getField "reference")
            (data.getField "amount") with
        | false => right; left; exact ⟨rfl, by simp [hev, hdata, hcust, hvf]⟩
        | true => right; right; exact ⟨rfl, by simp [hev, hdata, hcust, hvf]⟩

/-- Every action the post-acknowledgment phase emits is a processing
action (never the signature check or the acknowledgment itself). -/
theorem processWebhookEvent_trace_postAck (provider : Option Json → ProviderResult)
    (body : Json) (store : List Registration) (now : Nat) :
    ∀ a ∈ (processWebhookEvent provider body store now).1, postAckAction a = true := by
  rcases processWebhookEvent_cases provider body store now with h | ⟨_, h⟩ | ⟨_, h⟩ <;>
    rw [h] <;> intro a ha <;> simp at ha
  · subst ha; rfl
  · rcases ha with rfl | rfl <;> rfl
  · rcases ha with rfl | rfl | rfl <;> rfl

/-- Exhaustive description of one run of the webhook handler as far as
the store and the write/verify actions are concerned: either the store
is untouched and no `dbWrite` action occurred, or
`verifyPaystackTransaction` returned `true` on the event's reference
and claimed amount, the trace records that call followed by the write,
and the new store is `markPaid` at the event's email and reference. -/
theorem paystackWebhookHandler_cases (hmac : String → String → String)
    (provider : Option Json → ProviderResult) (secretKey : Option String)
    (req : WebhookRequest) (store : List Registration) (now : Nat) :
    ((paystackWebhookHandler hmac provider secretKey req store now).store = store
      ∧ ∀ e r, WAction.dbWrite e r
          ∉ (paystackWebhookHandler hmac provider secretKey req store now).trace)
    ∨ (verifyPaystackTransaction provider (eventRef req.body) (eventAmt req.body) = true
      ∧ (paystackWebhookHandler hmac provider secretKey req store now).store
          = markPaid store (eventRef req.body) (eventEmail req.body) now
      ∧ WAction.callVerify (eventRef req.body) (eventAmt req.body) true
          ∈ (paystackWebhookHandler hmac provider secretKey req store now).trace
      ∧ WAction.dbWrite (eventEmail req.body) (eventRef req.body)
          ∈ (paystackWebhookHandler hmac provider secretKey req store now).trace) := by
  unfold paystackWebhookHandler
  cases hmeth : req.method != "POST" with
  | true => left; simp [hmeth]
  | false =>
    cases secretKey with
    | none => left; simp [hmeth]
    | some key =>
      cases hsig : verifyPaystackWebhookSignature hmac req key with
      | false => left; simp [hmeth, hsig]
      | true =>
        rcases processWebhookEvent_cases provider req.body store now with
          h | ⟨_, h⟩ | ⟨hv, h⟩
        · left; simp [hmeth, hsig, h]
        · left; simp [hmeth, hsig, h]
        · right; exact ⟨hv, by simp [hmeth, hsig, h], by simp [hmeth, hsig, h],
            by simp [hmeth, hsig, h]⟩

/-! ## Claims -/

/-- C1: in every state the Webhook Reconciliation Flow can produce, a
registration's status is set to `paid` only after
`verifyPaystackTransaction` has returned `true` for that event: if the
handler changed the store at all, then verification of the event's
reference and claimed amount returned `true`, that verify call is in
the trace, and the change is exactly `markPaid` at the event's email
and reference.  Contrapositively, when verification returns `false`
(in particular whatever `status` the payload reports about itself), no
store write occurs. -/
theorem webhook_paid_only_after_verification (hmac : String → String → String)
    (provider : Option Json → ProviderResult) (secretKey : Option String)
    (req : WebhookRequest) (store : List Registration) (now : Nat)
    (hchange : (paystackWebhookHandler hmac provider secretKey req store now).store
      ≠ store) :
    verifyPaystackTransaction provider (eventRef req.body) (eventAmt req.body) = true
    ∧ WAction.callVerify (eventRef req.body) (eventAmt req.body) true
        ∈ (paystackWebhookHandler hmac provider secretKey req store now).trace
    ∧ (paystackWebhookHandler hmac provider secretKey req store now).store
        = markPaid store (eventRef req.body) (eventEmail req.body) now := by
  rcases paystackWebhookHandler_cases hmac provider secretKey req store now with
    ⟨h1, _⟩ | ⟨hv, hs, hc, _⟩
  · exact absurd h1 hchange
  · exact ⟨hv, hc, hs⟩

/-- Witness for C1: the scenario of spec §8 — a correctly signed
`charge.success` webhook whose transaction the provider confirms marks
the only pending row paid, and the theorem's conclusion holds there. -/
theorem webhook_paid_only_after_verification_witness :
    verifyPaystackTransaction providerW (eventRef reqW.body) (eventAmt reqW.body) = true
    ∧ WAction.callVerify (eventRef reqW.body) (eventAmt reqW.body) true
        ∈ (paystackWebhookHandler hmacW providerW (some "sk") reqW [rowW] 7).trace
    ∧ (paystackWebhookHandler hmacW providerW (some "sk") reqW [rowW] 7).store
        = markPaid [rowW] (eventRef reqW.body) (eventEmail reqW.body) 7 :=
  webhook_paid_only_after_verification hmacW providerW (some "sk") reqW [rowW] 7
    (by decide)

/-- C2, counterexample: the claim says the `amount_paid` recorded at
initialization time, times 100, is compared against the
provider-reported amount and a mismatch blocks the `paid` transition.
In the code the webhook flow never reads `amount_paid`: here the
stored row was initialized with `amount_paid = 500` Naira (50000
kobo), the event claims 999 kobo, the provider confirms 999 kobo, and
the row still transitions to `paid` although `999 ≠ 500 * 100`. -/
theorem webhook_ignores_stored_amount_counterexample :
    (paystackWebhookHandler hmacW providerW (some "sk") reqW [rowW] 7).store
      = [{ rowW with
            payment_ref := some (Json.str "r1")
            status := "paid"
            updated_at := 7 }]
    ∧ (999 : Int) ≠ rowW.amount_paid * 100 := by
  constructor
  · decide
  · decide

/-- C2, amended: the amount compared in the provider's minor unit is
the webhook event's own claimed `data.amount` (not the stored
`amount_paid` times 100): whenever the provider reports an amount
different from the event's claimed amount, the `paid` transition is
blocked — no store write at all. -/
theorem webhook_event_amount_mismatch_blocks_paid (hmac : String → String → String)
    (provider : Option Json → ProviderResult) (secretKey : Option String)
    (req : WebhookRequest) (store : List Registration) (now : Nat) (d : VerifiedData)
    (hok : provider (eventRef req.body) = ProviderResult.ok d)
    (hne : d.amount ≠ eventAmt req.body) :
    (paystackWebhookHandler hmac provider secretKey req store now).store = store
    ∧ ∀ e r, WAction.dbWrite e r
        ∉ (paystackWebhookHandler hmac provider secretKey req store now).trace := by
  have hbeq : (d.amount == eventAmt req.body) = false := by
    cases hb : d.amount == eventAmt req.body with
    | false => rfl
    | true => exact absurd (eq_of_beq hb) hne
  have hvf : verifyPaystackTransaction provider (eventRef req.body)
      (eventAmt req.body) = false := by
    unfold verifyPaystackTransaction
    rw [hok]
    simp [hbeq]
  rcases paystackWebhookHandler_cases hmac provider secretKey req store now with
    ⟨h1, h2⟩ | ⟨hv, _, _, _⟩
  · exact ⟨h1, h2⟩
  · rw [hvf] at hv; cases hv

/-- Witness for the amended C2: the provider reports 1000 kobo while
the event claims 999 kobo; the store is untouched and nothing is
written. -/
theorem webhook_event_amount_mismatch_blocks_paid_witness :
    (paystackWebhookHandler hmacW providerMismatchW (some "sk") reqW [rowW] 7).store
      = [rowW]
    ∧ ∀ e r, WAction.dbWrite e r
        ∉ (paystackWebhookHandler hmacW providerMismatchW (some "sk") reqW [rowW] 7).trace :=
  webhook_event_amount_mismatch_blocks_paid hmacW providerMismatchW (some "sk") reqW
    [rowW] 7
    { status := some (Json.str "success"), amount := some (Json.num 1000),
      reference := eventRef reqW.body }
    rfl (by decide)

/-- C3: the claim says the webhook HMAC is computed over the exact raw
request-body bytes.  The code computes it over
`JSON.stringify(req.body)`, a re-serialization of the parsed body —
contradicting the code's own comment ("Paystack expects HMAC-SHA512 of
the RAW request body") and the spec's §9 open question.  At `reqRawW`
the raw bytes contain a space the re-serialization drops, so a request
whose signature is correct over the raw bytes is rejected.  The header
absent case returns false, and a request whose raw bytes happen to
coincide byte for byte with the re-serialization (`reqW`) is accepted
with the correct key. -/
theorem webhookSignature_over_reserialized_body :
    Json.stringify reqRawW.body ≠ reqRawW.rawBody
    ∧ reqRawW.xPaystackSignature = some (hmacW "sk" reqRawW.rawBody)
    ∧ verifyPaystackWebhookSignature hmacW reqRawW "sk" = false
    ∧ verifyPaystackWebhookSignature hmacW
        { reqRawW with xPaystackSignature := none } "sk" = false
    ∧ reqW.rawBody = Json.stringify reqW.body
    ∧ reqW.xPaystackSignature = some (hmacW "sk" reqW.rawBody)
    ∧ verifyPaystackWebhookSignature hmacW reqW "sk" = true := by
  refine ⟨by decide, rfl, by decide, by decide, rfl, rfl, by decide⟩

/-- C5: `verifyPaystackTransaction` returns `true` exactly when the
provider call produced data whose status is the string `success`,
whose amount equals the claimed minor-unit amount, and whose reference
equals the requested reference.  Any mismatch, missing `data.data`
(the thrown field access lands in the `catch`) or network failure
(both are `ProviderResult.fail`) yields `false`; as a total Lean
function the embedding never throws, mirroring the source's
try/catch-everything structure. -/
theorem verifyPaystackTransaction_iff (provider : Option Json → ProviderResult)
    (transactionRef paidAmountKobo : Option Json) :
    verifyPaystackTransaction provider transactionRef paidAmountKobo = true ↔
      ∃ d, provider transactionRef = ProviderResult.ok d
        ∧ d.status = some (Json.str "success")
        ∧ d.amount = paidAmountKobo
        ∧ d.reference = transactionRef := by
  unfold verifyPaystackTransaction
  cases hp : provider transactionRef with
  | fail => simp [hp]
  | ok d => simp [hp, Bool.and_eq_true, beq_iff_eq, and_assoc]

/-- C6: with the secret key configured, a POST webhook request that is
correctly signed is answered `200`, and its trace is exactly the
signature check, then the acknowledgment, then only processing
actions (event filter, provider verify, store write) — i.e. the 200
acknowledgment comes strictly after signature verification and
strictly before every later step, whatever the provider and the event
contain; a request with a missing or invalid signature is answered
`400` with no acknowledgment, no processing action and no store
change. -/
theorem webhook_ack_after_sig_before_processing (hmac : String → String → String)
    (provider : Option Json → ProviderResult) (key : String)
    (req : WebhookRequest) (store : List Registration) (now : Nat)
    (hm : req.method = "POST") :
    (verifyPaystackWebhookSignature hmac req key = true →
      (paystackWebhookHandler hmac provider (some key) req store now).status = 200
      ∧ ∃ rest,
          (paystackWebhookHandler hmac provider (some key) req store now).trace
            = WAction.checkSig :: WAction.ack200 :: rest
          ∧ ∀ a ∈ rest, postAckAction a = true)
    ∧ (verifyPaystackWebhookSignature hmac req key = false →
      paystackWebhookHandler hmac provider (some key) req store now
        = { status := 400, trace := [WAction.checkSig], store := store }) := by
  constructor
  · intro hsig
    unfold paystackWebhookHandler
    simp [hm, hsig]
    exact processWebhookEvent_trace_postAck provider req.body store now
  · intro hsig
    unfold paystackWebhookHandler
    simp [hm, hsig]

/-- Witness for C6, at the correctly signed concrete request `reqW`. -/
theorem webhook_ack_after_sig_before_processing_witness :
    (verifyPaystackWebhookSignature hmacW reqW "sk" = true →
      (paystackWebhookHandler hmacW providerW (some "sk") reqW [rowW] 7).status = 200
      ∧ ∃ rest,
          (paystackWebhookHandler hmacW providerW (some "sk") reqW [rowW] 7).trace
            = WAction.checkSig :: WAction.ack200 :: rest
          ∧ ∀ a ∈ rest, postAckAction a = true)
    ∧ (verifyPaystackWebhookSignature hmacW reqW "sk" = false →
      paystackWebhookHandler hmacW providerW (some "sk") reqW [rowW] 7
        = { status := 400, trace := [WAction.checkSig], store := [rowW] }) :=
  webhook_ack_after_sig_before_processing hmacW providerW "sk" reqW [rowW] 7 rfl

/-- C7: `markPaid` is idempotent — running the `UPDATE` a second time
with the same reference, email and timestamp leaves the table exactly
as after the first run; no duplicate row is created (the length never
changes), and every matched row ends `paid` carrying that same
reference. -/
theorem markPaid_idempotent (store : List Registration)
    (transactionRef customerEmail : Option Json) (now : Nat) :
    markPaid (markPaid store transactionRef customerEmail now)
        transactionRef customerEmail now
      = markPaid store transactionRef customerEmail now
    ∧ (markPaid store transactionRef customerEmail now).length = store.length
    ∧ ∀ r ∈ markPaid store transactionRef customerEmail now,
        customerEmail = some (Json.str r.email) →
          r.status = "paid" ∧ r.payment_ref = transactionRef := by
  refine ⟨?_, by simp [markPaid], ?_⟩
  · unfold markPaid
    rw [List.map_map]
    apply List.map_congr_left
    intro r _
    cases h : customerEmail == some (Json.str r.email) with
    | true => simp [Function.comp, h]
    | false => simp [Function.comp, h]
  · intro r hr hmail
    unfold markPaid at hr
    rcases List.mem_map.mp hr with ⟨a, _, rfl⟩
    cases h : customerEmail == some (Json.str a.email) with
    | true => simp [h]
    | false =>
      simp only [h, Bool.false_eq_true, if_false] at hmail
      exact absurd (beq_iff_eq.mpr hmail) (by simp [h])

/-- Witness for C7 at a concrete one-row table. -/
theorem markPaid_idempotent_witness :
    markPaid (markPaid [rowW] (some (Json.str "r1")) (some (Json.str "a@x.com")) 7)
        (some (Json.str "r1")) (some (Json.str "a@x.com")) 7
      = markPaid [rowW] (some (Json.str "r1")) (some (Json.str "a@x.com")) 7
    ∧ (markPaid [rowW] (some (Json.str "r1")) (some (Json.str "a@x.com")) 7).length
        = [rowW].length
    ∧ ∀ r ∈ markPaid [rowW] (some (Json.str "r1")) (some (Json.str "a@x.com")) 7,
        some (Json.str "a@x.com") = some (Json.str r.email) →
          r.status = "paid" ∧ r.payment_ref = some (Json.str "r1") :=
  markPaid_idempotent [rowW] (some (Json.str "r1")) (some (Json.str "a@x.com")) 7

/-- C8: for an email matching no row, `markPaid` is a no-op and not an
error: the table is unchanged and the touched-row result is `none`
(the embedding is total, so nothing is raised). -/
theorem markPaid_absent_email_noop (store : List Registration)
    (transactionRef customerEmail : Option Json) (now : Nat)
    (habs : ∀ r ∈ store, customerEmail ≠ some (Json.str r.email)) :
    markPaid store transactionRef customerEmail now = store
    ∧ markPaidRow store transactionRef customerEmail now = none := by
  have hm : markPaid store transactionRef customerEmail now = store := by
    unfold markPaid
    have hc : ∀ r ∈ store, (customerEmail == some (Json.str r.email)) = false := by
      intro r hr
      cases h : customerEmail == some (Json.str r.email) with
      | false => rfl
      | true => exact absurd (eq_of_beq h) (habs r hr)
    calc store.map (fun r =>
          if customerEmail == some (Json.str r.email) then
            { r with
                payment_ref := transactionRef
                status := "paid"
                updated_at := now }
          else r)
        = store.map id := List.map_congr_left (fun r hr => by simp [hc r hr])
      _ = store := List.map_id store
  refine ⟨hm, ?_⟩
  unfold markPaidRow
  rw [hm]
  apply List.find?_eq_none.mpr
  intro r hr
  simp only [Bool.not_eq_true]
  cases h : customerEmail == some (Json.str r.email) with
  | false => rfl
  | true => exact absurd (eq_of_beq h) (habs r hr)

/-- Witness for C8: an email present nowhere in the one-row table. -/
theorem markPaid_absent_email_noop_witness :
    markPaid [rowW] (some (Json.str "r1")) (some (Json.str "zz@x.com")) 7 = [rowW]
    ∧ markPaidRow [rowW] (some (Json.str "r1")) (some (Json.str "zz@x.com")) 7
        = none :=
  markPaid_absent_email_noop [rowW] (some (Json.str "r1"))
    (some (Json.str "zz@x.com")) 7 (by decide)

/-- C4: when the registrations the `SELECT` returns for the submitted
email start with a `paid` row, the Initialization Flow terminates with
`409 Conflict`, the table is returned unaltered (the transaction was
rolled back), and the trace is the read alone — no store write and no
provider `initializeTransaction` call. -/
theorem initializePayment_conflict_when_paid (key : String) (gatewayOk : Bool)
    (req : InitRequest) (store : List Registration) (now : Nat)
    (u : Registration) (rest : List Registration)
    (hm : req.method = "POST")
    (hvalid : (req.email == "" || req.amount == 0 || req.fullName == ""
        || decide (req.amount ≤ 0)) = false)
    (hfl : store.filter (fun r => r.email == req.email) = u :: rest)
    (hpaid : u.status = "paid") :
    initializePaymentHandler (some key) gatewayOk req store now
      = { status := 409, trace := [IAction.storeRead], store := store } := by
  unfold initializePaymentHandler
  simp [hm, hvalid, hfl, hpaid]

/-- Witness for C4: re-submitting `a@x.com` against a table where that
email is already paid. -/
theorem initializePayment_conflict_when_paid_witness :
    initializePaymentHandler (some "sk") true reqInitW [rowPaidW] 7
      = { status := 409, trace := [IAction.storeRead], store := [rowPaidW] } :=
  initializePayment_conflict_when_paid "sk" true reqInitW [rowPaidW] 7
    rowPaidW [] rfl (by decide) (by decide) rfl

/-- C9: when the provider initialize call fails after the committed
store write (and the email was not already paid), the Initialization
Flow answers `500`, the store is exactly what it would have been had
the gateway succeeded (the gateway failure changes nothing in it), and
it contains a row for the submitted email that is `pending` and
carries the submitted full name and amount. -/
theorem initializePayment_gateway_failure_preserves_pending_row (key : String)
    (req : InitRequest) (store : List Registration) (now : Nat)
    (hm : req.method = "POST")
    (hvalid : (req.email == "" || req.amount == 0 || req.fullName == ""
        || decide (req.amount ≤ 0)) = false)
    (hnp : ∀ u ∈ store.filter (fun r => r.email == req.email), u.status ≠ "paid") :
    (initializePaymentHandler (some key) false req store now).status = 500
    ∧ (initializePaymentHandler (some key) false req store now).store
        = (initializePaymentHandler (some key) true req store now).store
    ∧ ∃ row ∈ (initializePaymentHandler (some key) false req store now).store,
        row.email = req.email ∧ row.status = "pending"
        ∧ row.full_name = req.fullName ∧ row.amount_paid = req.amount := by
  unfold initializePaymentHandler
  cases hfl : store.filter (fun r => r.email == req.email) with
  | nil =>
    simp only [hm, hvalid, hfl]
    simp [respondAfterGateway]
    exact ⟨_, Or.inr rfl, rfl, rfl, rfl, rfl⟩
  | cons u tl =>
    have humem : u ∈ store.filter (fun r => r.email == req.email) := by
      rw [hfl]; exact List.mem_cons_self u tl
    have hub : (u.status == "paid") = false := by
      cases h : u.status == "paid" with
      | false => rfl
      | true => exact absurd (eq_of_beq h) (hnp u humem)
    have hueq : (u.email == req.email) = true := (List.mem_filter.mp humem).2
    simp only [hm, hvalid, hfl, hub]
    simp only [bne_self_eq_false, Bool.false_eq_true, if_false, Bool.false_eq_true]
    refine ⟨rfl, rfl, ?_⟩
    refine ⟨_, List.mem_map_of_mem _ (List.mem_filter.mp humem).1, ?_⟩
    rw [if_pos hueq]
    exact ⟨eq_of_beq hueq, rfl, rfl, rfl⟩

/-- Witness for C9: gateway failure after upserting `a@x.com` over a
pending row. -/
theorem initializePayment_gateway_failure_preserves_pending_row_witness :
    (initializePaymentHandler (some "sk") false reqInitW [rowW] 7).status = 500
    ∧ (initializePaymentHandler (some "sk") false reqInitW [rowW] 7).store
        = (initializePaymentHandler (some "sk") true reqInitW [rowW] 7).store
    ∧ ∃ row ∈ (initializePaymentHandler (some "sk") false reqInitW [rowW] 7).store,
        row.email = reqInitW.email ∧ row.status = "pending"
        ∧ row.full_name = reqInitW.fullName ∧ row.amount_paid = reqInitW.amount :=
  initializePayment_gateway_failure_preserves_pending_row "sk" reqInitW [rowW] 7
    rfl (by decide) (by decide)

/-- C10: when `PAYSTACK_SECRET_KEY` is absent, both POST endpoints
answer `500` with an empty trace and an unchanged store: the
initialization endpoint performs no store access and no provider call,
and the webhook endpoint does not even check the signature — so a
correctly signed webhook request (any `hmac`, any signature header) is
answered `500`, never acknowledged with `200`. -/
theorem missing_secret_key_fails_closed (hmac : String → String → String)
    (provider : Option Json → ProviderResult) (gatewayOk : Bool)
    (reqI : InitRequest) (reqH : WebhookRequest)
    (store : List Registration) (now : Nat)
    (hi : reqI.method = "POST") (hw : reqH.method = "POST") :
    initializePaymentHandler none gatewayOk reqI store now
        = { status := 500, trace := [], store := store }
    ∧ paystackWebhookHandler hmac provider none reqH store now
        = { status := 500, trace := [], store := store } := by
  constructor
  · unfold initializePaymentHandler
    simp [hi]
  · unfold paystackWebhookHandler
    simp [hw]

/-- Witness for C10: the concrete correctly signed webhook request and
a valid initialization request, with no configured key. -/
theorem missing_secret_key_fails_closed_witness :
    initializePaymentHandler none true reqInitW [rowW] 7
        = { status := 500, trace := [], store := [rowW] }
    ∧ paystackWebhookHandler hmacW providerW none reqW [rowW] 7
        = { status := 500, trace := [], store := [rowW] } :=
  missing_secret_key_fails_closed hmacW providerW true reqInitW reqW [rowW] 7 rfl rfl

end ZoeAcademy
